import Mathlib

/-!
# Contact form handler (`src/script.js`)

A shallow embedding of the three functions of `script.js`:

* `validate_email`      : the regular expression test of the `email` field,
* `show_status_message` : the presenter of the status region,
* `handle_form_submit`  : the asynchronous submit handler.

Strings are Lean strings.  The regular expression of `validate_email` has no `u`
flag and therefore runs over UTF-16 code units; a character outside the basic
plane is a pair of surrogates, neither of which is white space, `@` or `.`, so the
outcome of the test and of `trim` is the same over characters as over code units.
-/

namespace Script

/-! ## Strings: white space and `trim` -/

/-- ECMAScript `WhiteSpace` and `LineTerminator` code points.  This is the set that
`\s` matches in a regular expression and that `String.prototype.trim` strips. -/
def isWhiteSpace (c : Char) : Bool :=
  let n := c.toNat
  n == 0x09 || n == 0x0A || n == 0x0B || n == 0x0C || n == 0x0D || n == 0x20 ||
  n == 0xA0 || n == 0x1680 || (0x2000 ≤ n && n ≤ 0x200A) || n == 0x2028 ||
  n == 0x2029 || n == 0x202F || n == 0x205F || n == 0x3000 || n == 0xFEFF

/-- The characters of `trim`: leading white space dropped, then trailing. -/
def trimChars (l : List Char) : List Char :=
  ((l.dropWhile isWhiteSpace).reverse.dropWhile isWhiteSpace).reverse

/-- JavaScript `String.prototype.trim`. -/
def trim (s : String) : String :=
  ⟨trimChars s.data⟩

/-- JavaScript truthiness of a string: only the empty string is falsy. -/
def truthy (s : String) : Bool :=
  !s.data.isEmpty

/-! ## Regular expressions -/

/-- The fragment of regular expressions used by `email_regex`: character classes,
concatenation and iteration.  `never` and `alt` only arise as derivatives. -/
inductive Regex where
  | never : Regex
  | empty : Regex
  | cls (p : Char → Bool) : Regex
  | seq (r s : Regex) : Regex
  | alt (r s : Regex) : Regex
  | star (r : Regex) : Regex

namespace Regex

/-- The quantifier `+`: one or more repetitions. -/
def plus (r : Regex) : Regex :=
  seq r (star r)

/-- Does the expression accept the empty input? -/
def nullable : Regex → Bool
  | never => false
  | empty => true
  | cls _ => false
  | seq r s => r.nullable && s.nullable
  | alt r s => r.nullable || s.nullable
  | star _ => true

/-- What remains to be matched once the character `c` has been consumed. -/
def deriv : Regex → Char → Regex
  | never, _ => never
  | empty, _ => never
  | cls p, c => if p c then empty else never
  | seq r s, c =>
    if r.nullable then alt (seq (r.deriv c) s) (s.deriv c) else seq (r.deriv c) s
  | alt r s, c => alt (r.deriv c) (s.deriv c)
  | star r, c => seq (r.deriv c) (star r)

/-- Anchored match (`^ ... $`): the whole input is consumed. -/
def rmatch : Regex → List Char → Bool
  | r, [] => r.nullable
  | r, c :: cs => (r.deriv c).rmatch cs

/-- `RegExp.prototype.test` for a pattern written between `^` and `$`, without flags. -/
def test (r : Regex) (s : String) : Bool :=
  r.rmatch s.data

/-- The words of a regular expression (its denotation). -/
inductive Matches : Regex → List Char → Prop
  | empty : Matches empty []
  | cls {p : Char → Bool} {c : Char} : p c = true → Matches (cls p) [c]
  | seq {r s : Regex} {x y : List Char} :
      Matches r x → Matches s y → Matches (seq r s) (x ++ y)
  | altL {r s : Regex} {x : List Char} : Matches r x → Matches (alt r s) x
  | altR {r s : Regex} {x : List Char} : Matches s x → Matches (alt r s) x
  | starNil {r : Regex} : Matches (star r) []
  | starCons {r : Regex} {x y : List Char} :
      Matches r x → Matches (star r) y → Matches (star r) (x ++ y)

end Regex

/-! ## `validate_email` -/

/-- The class `[^\s@]`. -/
def notSpaceAt (c : Char) : Bool :=
  !(isWhiteSpace c || c == '@')

/-- The pattern `/^[^\s@]+@[^\s@]+\.[^\s@]+$/` (the anchors are in `Regex.test`). -/
def email_regex : Regex :=
  Regex.seq (Regex.plus (Regex.cls notSpaceAt))
    (Regex.seq (Regex.cls (fun c => c == '@'))
      (Regex.seq (Regex.plus (Regex.cls notSpaceAt))
        (Regex.seq (Regex.cls (fun c => c == '.'))
          (Regex.plus (Regex.cls notSpaceAt)))))

/-- `validate_email(email)`: `email_regex.test(email)`. -/
def validate_email (email : String) : Bool :=
  email_regex.test email

/-! ## The document -/

/-- A text control of the form: its current value and the default value that
`form.reset()` restores. -/
structure Input where
  value : String
  defaultValue : String
  deriving DecidableEq

/-- The status region: its `classList` (an ordered set of tokens) and its text. -/
structure Element where
  classList : List String
  textContent : String
  deriving DecidableEq

/-- The submit button of the form. -/
structure Button where
  disabled : Bool
  textContent : String
  deriving DecidableEq

/-- A call of `fetch`: the path, the method and the entries of the `FormData` body in
the order of their `append`. -/
structure Request where
  url : String
  method : String
  body : List (String × String)
  deriving DecidableEq

/-- The callbacks handed to `setTimeout`; the only one of this script is
`() => { status_message.classList.add('hidden'); }`. -/
inductive Callback where
  | hide_status : Callback
  deriving DecidableEq

/-- A pending `setTimeout(callback, delay)`. -/
structure Timer where
  callback : Callback
  delay : Nat
  deriving DecidableEq

/-- The exceptions that can arise while the script runs. -/
inductive JSError where
  | syntaxError : JSError
  | invalidCharacterError : JSError
  | referenceError (identifier : String) : JSError
  | fetchRejected : JSError
  | bodyUnreadable : JSError
  deriving DecidableEq

/-- How a statement or a function body ends. -/
inductive Completion where
  | normal : Completion
  | throw (error : JSError) : Completion
  deriving DecidableEq

/-- Everything `handle_form_submit` reads or writes.  The five elements are the ones
it looks up (`nombre`, `email`, `mensaje`, `status_message`, the submit button of
`event.target`); they are taken to exist.

`contact_form_resolves` answers the lookup of the identifier `contact_form` made
inside `handle_form_submit`.  The `const contact_form` of the source belongs to the
`DOMContentLoaded` listener, so inside the handler the lookup goes to the global
environment of the host.  The listener attaches the handler only to the element
whose id is `contact_form`, and a document exposes an element with an id as a global
of that name (named access on `Window`): on the page where the script runs the
handler the field is `true`.  `false` is a host without such a global. -/
structure World where
  nombre_input : Input
  email_input : Input
  mensaje_input : Input
  status_message : Element
  submit_button : Button
  contact_form_resolves : Bool
  default_prevented : Bool
  requests : List Request
  timers : List Timer
  console : List JSError
  deriving DecidableEq

/-- The parsed body of the response, `data`, at the type the script reads it: an
object with `data.success` as a flag and `data.message` as a string that may be
missing. -/
structure SubmissionResult where
  success : Bool
  message : Option String
  deriving DecidableEq

/-- The outcome of the transport call: `fetch` rejects, or it resolves to a response
with its `ok` flag whose `json()` either resolves to an object `data`, or yields no
object to read (`none`): `json()` rejects on a malformed body, and a body that is the
JSON `null` makes the first read of `data.success` or `data.message` throw.  Both
happen inside the `try` block. -/
inductive Transport where
  | rejected : Transport
  | response (ok : Bool) (data : Option SubmissionResult) : Transport
  deriving DecidableEq

/-! ## `show_status_message` -/

/-- ASCII white space, which a `DOMTokenList` token may not contain. -/
def isAsciiWhitespace (c : Char) : Bool :=
  c == '\t' || c == '\n' || c == '\x0c' || c == '\r' || c == ' '

/-- `classList.remove(...tokens)` for valid tokens: every listed token leaves the set. -/
def classList_remove (classList : List String) (tokens : List String) : List String :=
  classList.filter (fun t => !tokens.contains t)

/-- `classList.add(token)`: an empty token or one with ASCII white space throws;
otherwise the token is appended unless it is already in the set. -/
def classList_add (classList : List String) (token : String) :
    Except JSError (List String) :=
  if token.data.isEmpty then Except.error JSError.syntaxError
  else if token.data.any isAsciiWhitespace then Except.error JSError.invalidCharacterError
  else if classList.contains token then Except.ok classList
  else Except.ok (classList ++ [token])

/-- `show_status_message(element, message, type)`.  The element is returned as the
statements executed so far have left it, together with the completion. -/
def show_status_message (element : Element) (message : String) (type : String) :
    Element × Completion :=
  let element := { element with
    classList := classList_remove element.classList ["success", "error", "hidden"] }
  match classList_add element.classList type with
  | Except.error e => (element, Completion.throw e)
  | Except.ok classes =>
    let element := { element with classList := classes }
    let element := { element with textContent := message }
    let element := { element with classList := classList_remove element.classList ["hidden"] }
    (element, Completion.normal)

/-! ## `handle_form_submit` -/

/-- The value of `a || b` for strings that may be `undefined`. -/
def or_else (a : Option String) (b : String) : String :=
  match a with
  | some s => if truthy s then s else b
  | none => b

/-- The string that the `textContent` setter stores for a value that may be
`undefined`: the attribute is a nullable string, and `undefined` empties the text. -/
def text_of (a : Option String) : String :=
  match a with
  | some s => s
  | none => ""

/-- `contact_form.reset()`: every control of the form goes back to its default. -/
def form_reset (w : World) : World :=
  { w with
    nombre_input := { w.nombre_input with value := w.nombre_input.defaultValue }
    email_input := { w.email_input with value := w.email_input.defaultValue }
    mensaje_input := { w.mensaje_input with value := w.mensaje_input.defaultValue } }

/-- `setTimeout(callback, delay)`. -/
def set_timeout (w : World) (callback : Callback) (delay : Nat) : World :=
  { w with timers := w.timers ++ [{ callback := callback, delay := delay }] }

/-- What a timer does when it fires. -/
def run_callback (w : World) : Callback → World
  | Callback.hide_status =>
    match classList_add w.status_message.classList "hidden" with
    | Except.ok classes => { w with status_message := { w.status_message with classList := classes } }
    | Except.error _ => w

/-- Calls `show_status_message` on the status region of the world. -/
def show_status (w : World) (message : String) (type : String) : World × Completion :=
  let r := show_status_message w.status_message message type
  ({ w with status_message := r.1 }, r.2)

/-- Where the synchronous part of `handle_form_submit` stops: at a `return` of one of
the two validation gates, or suspended at `await fetch(...)` with the request issued
and `original_text` kept for the `finally` block. -/
inductive Started where
  | returned (w : World) (c : Completion) : Started
  | pending (w : World) (original_text : String) : Started
  deriving DecidableEq

/-- The handler from its first statement to `await fetch(...)`. -/
def handle_form_submit_start (w : World) : Started :=
  let w := { w with default_prevented := true }
  let nombre := trim w.nombre_input.value
  let email := trim w.email_input.value
  let mensaje := trim w.mensaje_input.value
  if !truthy nombre || !truthy email || !truthy mensaje then
    let r := show_status w "Por favor completa todos los campos" "error"
    Started.returned r.1 r.2
  else if !validate_email email then
    let r := show_status w "Por favor ingresa un email válido" "error"
    Started.returned r.1 r.2
  else
    let w := { w with submit_button := { w.submit_button with disabled := true } }
    let original_text := w.submit_button.textContent
    let w := { w with submit_button := { w.submit_button with textContent := "Enviando..." } }
    let form_data := [("nombre", nombre), ("email", email), ("mensaje", mensaje)]
    let w := { w with
      requests := w.requests ++ [{ url := "/send_email", method := "POST", body := form_data }] }
    Started.pending w original_text

/-- The rest of the `try` block, from the settlement of `fetch` on. -/
def try_block (w : World) : Transport → World × Completion
  | Transport.rejected => (w, Completion.throw JSError.fetchRejected)
  | Transport.response _ none => (w, Completion.throw JSError.bodyUnreadable)
  | Transport.response ok (some data) =>
    if ok && data.success then
      let r := show_status w (text_of data.message) "success"
      match r.2 with
      | Completion.throw e => (r.1, Completion.throw e)
      | Completion.normal =>
        if r.1.contact_form_resolves then
          (set_timeout (form_reset r.1) Callback.hide_status 5000, Completion.normal)
        else
          (r.1, Completion.throw (JSError.referenceError "contact_form"))
    else
      show_status w (or_else data.message "Error al enviar el correo") "error"

/-- The `catch (error)` block. -/
def catch_block (w : World) (error : JSError) : World × Completion :=
  let w := { w with console := w.console ++ [error] }
  show_status w "Error de conexión. Intenta de nuevo." "error"

/-- The `finally` block. -/
def finally_block (w : World) (original_text : String) : World :=
  let w := { w with submit_button := { w.submit_button with disabled := false } }
  { w with submit_button := { w.submit_button with textContent := original_text } }

/-- The handler from the settlement of the transport call to its end:
`try { ... } catch (error) { ... } finally { ... }`. -/
def handle_form_submit_settle (w : World) (original_text : String) (t : Transport) :
    World × Completion :=
  let r := try_block w t
  let r := match r.2 with
    | Completion.normal => r
    | Completion.throw e => catch_block r.1 e
  (finally_block r.1 original_text, r.2)

/-- `handle_form_submit(event)` run to completion against the transport outcome `t`:
the final world and how the function ends (`normal`: the promise it returns is
fulfilled, `throw`: it is rejected).  Nothing else touches the page while the handler
is suspended. -/
def handle_form_submit (w : World) (t : Transport) : World × Completion :=
  match handle_form_submit_start w with
  | Started.returned w c => (w, c)
  | Started.pending w original_text => handle_form_submit_settle w original_text t

/-- The two validation gates, as the claims word them. -/
def passes_gates (w : World) : Prop :=
  trim w.nombre_input.value ≠ "" ∧ trim w.email_input.value ≠ "" ∧
    trim w.mensaje_input.value ≠ "" ∧ validate_email (trim w.email_input.value) = true

instance (w : World) : Decidable (passes_gates w) :=
  inferInstanceAs (Decidable (_ ∧ _ ∧ _ ∧ _))

/-- The page of the end-to-end scenarios: name "Ana", email "ana@example.com",
message "Hola", a hidden status region and an idle button labelled "Enviar". -/
def scenario (resolves : Bool) : World :=
  { nombre_input := { value := "Ana", defaultValue := "" }
    email_input := { value := " ana@example.com ", defaultValue := "" }
    mensaje_input := { value := "Hola", defaultValue := "" }
    status_message := { classList := ["status", "hidden"], textContent := "" }
    submit_button := { disabled := false, textContent := "Enviar" }
    contact_form_resolves := resolves
    default_prevented := false
    requests := []
    timers := []
    console := [] }

/-! ## Vocabulary of the claims -/

/-- A part of an address as the specification words it: no white space, no `@`. -/
def NoSpaceNoAt (s : String) : Prop :=
  ∀ c ∈ s.data, isWhiteSpace c = false ∧ c ≠ '@'

instance (s : String) : Decidable (NoSpaceNoAt s) :=
  inferInstanceAs (Decidable (∀ c ∈ s.data, isWhiteSpace c = false ∧ c ≠ '@'))

/-- The three presentation classes that `show_status_message` clears. -/
def presentation : List String :=
  ["success", "error", "hidden"]

/-- The status region shows `message` with kind `kind`: it is visible, its text is
`message`, it carries the class of `kind` and not the class of the other kind. -/
def displays (element : Element) (message kind : String) : Prop :=
  element.textContent = message ∧ kind ∈ element.classList ∧
    "hidden" ∉ element.classList ∧
    ∀ k ∈ ["success", "error"], k ≠ kind → k ∉ element.classList

instance (element : Element) (message kind : String) : Decidable (displays element message kind) :=
  inferInstanceAs (Decidable (_ ∧ _ ∧ _ ∧ _))

/-- The world in which the handler waits for the transport call when both gates have
passed (`start_of_passes_gates` derives it from `handle_form_submit_start`). -/
def busy (w : World) : World :=
  { w with
    default_prevented := true
    submit_button := { disabled := true, textContent := "Enviando..." }
    requests := w.requests ++
      [{ url := "/send_email", method := "POST",
         body := [("nombre", trim w.nombre_input.value), ("email", trim w.email_input.value),
                  ("mensaje", trim w.mensaje_input.value)] }] }

/-! ## Correctness of the matcher -/

namespace Regex

theorem nullable_iff (r : Regex) : r.nullable = true ↔ Matches r [] := by
  constructor
  · intro h
    induction r with
    | never => simp [nullable] at h
    | empty => exact Matches.empty
    | cls p => simp [nullable] at h
    | seq r s ihr ihs =>
      simp only [nullable, Bool.and_eq_true] at h
      exact Matches.seq (ihr h.1) (ihs h.2)
    | alt r s ihr ihs =>
      simp only [nullable, Bool.or_eq_true] at h
      rcases h with h | h
      · exact Matches.altL (ihr h)
      · exact Matches.altR (ihs h)
    | star r _ => exact Matches.starNil
  · intro h
    generalize hx : ([] : List Char) = x at h
    induction h with
    | empty => rfl
    | cls _ => simp at hx
    | seq _ _ ihr ihs =>
      have hxy := List.append_eq_nil.mp hx.symm
      simp only [nullable, Bool.and_eq_true]
      exact ⟨ihr hxy.1.symm, ihs hxy.2.symm⟩
    | altL _ ih => simp [nullable, ih hx]
    | altR _ ih => simp [nullable, ih hx]
    | starNil => rfl
    | starCons _ _ _ _ => rfl

theorem matches_of_deriv (r : Regex) (c : Char) (x : List Char)
    (h : Matches (r.deriv c) x) : Matches r (c :: x) := by
  induction r generalizing x with
  | never => cases h
  | empty => cases h
  | cls p =>
    by_cases hp : p c = true
    · simp only [deriv, hp, if_true] at h
      cases h
      exact Matches.cls hp
    · simp only [deriv, hp] at h
      cases h
  | seq r s ihr ihs =>
    by_cases hn : r.nullable = true
    · simp only [deriv, hn, if_true] at h
      cases h with
      | altL h1 =>
        cases h1 with
        | seq ha hb => exact Matches.seq (ihr _ ha) hb
      | altR h2 =>
        exact Matches.seq ((nullable_iff r).mp hn) (ihs _ h2)
    · simp only [deriv, hn] at h
      cases h with
      | seq ha hb => exact Matches.seq (ihr _ ha) hb
  | alt r s ihr ihs =>
    cases h with
    | altL h1 => exact Matches.altL (ihr _ h1)
    | altR h2 => exact Matches.altR (ihs _ h2)
  | star r ih =>
    cases h with
    | seq ha hb => exact Matches.starCons (ih _ ha) hb

theorem deriv_of_matches (r : Regex) (c : Char) (x y : List Char)
    (h : Matches r y) (hy : y = c :: x) : Matches (r.deriv c) x := by
  induction h generalizing x with
  | empty => simp at hy
  | @cls p d hp =>
    simp only [List.cons.injEq] at hy
    obtain ⟨rfl, rfl⟩ := hy
    simp only [deriv, hp, if_true]
    exact Matches.empty
  | @seq r s u v hu hv ihu ihv =>
    cases u with
    | nil =>
      simp only [List.nil_append] at hy
      have hn := (nullable_iff r).mpr hu
      simp only [deriv, hn, if_true]
      exact Matches.altR (ihv x hy)
    | cons d u =>
      simp only [List.cons_append, List.cons.injEq] at hy
      obtain ⟨rfl, rfl⟩ := hy
      have h1 : Matches (seq (r.deriv d) s) (u ++ v) := Matches.seq (ihu u rfl) hv
      by_cases hn : r.nullable = true
      · simp only [deriv, hn, if_true]
        exact Matches.altL h1
      · simp only [deriv, hn]
        exact h1
  | altL _ ih => exact Matches.altL (ih x hy)
  | altR _ ih => exact Matches.altR (ih x hy)
  | starNil => simp at hy
  | @starCons r u v hu hv ihu ihv =>
    cases u with
    | nil =>
      simp only [List.nil_append] at hy
      exact ihv x hy
    | cons d u =>
      simp only [List.cons_append, List.cons.injEq] at hy
      obtain ⟨rfl, rfl⟩ := hy
      exact Matches.seq (ihu u rfl) hv

theorem deriv_iff (r : Regex) (c : Char) (x : List Char) :
    Matches (r.deriv c) x ↔ Matches r (c :: x) :=
  ⟨matches_of_deriv r c x, fun h => deriv_of_matches r c x _ h rfl⟩

/-- The derivative matcher decides the denotation. -/
theorem rmatch_iff (r : Regex) (x : List Char) : r.rmatch x = true ↔ Matches r x := by
  induction x generalizing r with
  | nil => exact nullable_iff r
  | cons c x ih => exact (ih (r.deriv c)).trans (deriv_iff r c x)

end Regex

/-! ## The words of `email_regex` -/

theorem notSpaceAt_iff (c : Char) :
    notSpaceAt c = true ↔ isWhiteSpace c = false ∧ c ≠ '@' := by
  unfold notSpaceAt
  cases isWhiteSpace c <;> simp

namespace Regex

theorem matches_cls_iff (p : Char → Bool) (x : List Char) :
    Matches (cls p) x ↔ ∃ c, x = [c] ∧ p c = true := by
  constructor
  · intro h
    cases h with
    | cls hp => exact ⟨_, rfl, hp⟩
  · rintro ⟨c, rfl, hp⟩
    exact Matches.cls hp

theorem matches_seq_iff (r s : Regex) (x : List Char) :
    Matches (seq r s) x ↔ ∃ u v, x = u ++ v ∧ Matches r u ∧ Matches s v := by
  constructor
  · intro h
    cases h with
    | seq hu hv => exact ⟨_, _, rfl, hu, hv⟩
  · rintro ⟨u, v, rfl, hu, hv⟩
    exact Matches.seq hu hv

theorem all_of_matches_star_cls (p : Char → Bool) (r : Regex) (x : List Char)
    (h : Matches r x) (hr : r = star (cls p)) : ∀ c ∈ x, p c = true := by
  induction h with
  | empty => cases hr
  | cls _ => cases hr
  | seq _ _ _ _ => cases hr
  | altL _ _ => cases hr
  | altR _ _ => cases hr
  | starNil => simp
  | starCons hu _ _ ihv =>
    cases hr
    intro c hc
    rcases List.mem_append.mp hc with hc | hc
    · obtain ⟨d, rfl, hd⟩ := (matches_cls_iff p _).mp hu
      simp only [List.mem_singleton] at hc
      exact hc ▸ hd
    · exact ihv rfl c hc

theorem matches_star_cls_iff (p : Char → Bool) (x : List Char) :
    Matches (star (cls p)) x ↔ ∀ c ∈ x, p c = true := by
  constructor
  · intro h
    exact all_of_matches_star_cls p _ x h rfl
  · intro h
    induction x with
    | nil => exact Matches.starNil
    | cons c x ih =>
      have hc : p c = true := h c (List.mem_cons_self c x)
      have hx : Matches (star (cls p)) x := ih (fun d hd => h d (List.mem_cons_of_mem c hd))
      exact Matches.starCons (Matches.cls hc) hx

theorem matches_plus_cls_iff (p : Char → Bool) (x : List Char) :
    Matches (plus (cls p)) x ↔ x ≠ [] ∧ ∀ c ∈ x, p c = true := by
  unfold plus
  rw [matches_seq_iff]
  constructor
  · rintro ⟨u, v, rfl, hu, hv⟩
    obtain ⟨d, rfl, hd⟩ := (matches_cls_iff p u).mp hu
    refine ⟨by simp, ?_⟩
    intro c hc
    simp only [List.singleton_append, List.mem_cons] at hc
    rcases hc with rfl | hc
    · exact hd
    · exact (matches_star_cls_iff p v).mp hv c hc
  · rintro ⟨hne, hall⟩
    cases x with
    | nil => exact absurd rfl hne
    | cons c x =>
      refine ⟨[c], x, rfl, Matches.cls (hall c (List.mem_cons_self c x)), ?_⟩
      exact (matches_star_cls_iff p x).mpr (fun d hd => hall d (List.mem_cons_of_mem c hd))

end Regex

/-- The words of `email_regex`, over lists of characters. -/
theorem email_regex_matches_iff (x : List Char) :
    Regex.Matches email_regex x ↔
      ∃ a b d : List Char, x = a ++ '@' :: (b ++ '.' :: d) ∧
        (a ≠ [] ∧ ∀ c ∈ a, notSpaceAt c = true) ∧
        (b ≠ [] ∧ ∀ c ∈ b, notSpaceAt c = true) ∧
        (d ≠ [] ∧ ∀ c ∈ d, notSpaceAt c = true) := by
  unfold email_regex
  constructor
  · intro h
    obtain ⟨a, x1, rfl, ha, h1⟩ := (Regex.matches_seq_iff _ _ _).mp h
    obtain ⟨at1, x2, rfl, hat, h2⟩ := (Regex.matches_seq_iff _ _ _).mp h1
    obtain ⟨b, x3, rfl, hb, h3⟩ := (Regex.matches_seq_iff _ _ _).mp h2
    obtain ⟨dot1, d, rfl, hdot, hd⟩ := (Regex.matches_seq_iff _ _ _).mp h3
    obtain ⟨c1, rfl, hc1⟩ := (Regex.matches_cls_iff _ _).mp hat
    obtain ⟨c2, rfl, hc2⟩ := (Regex.matches_cls_iff _ _).mp hdot
    simp only [beq_iff_eq] at hc1 hc2
    subst hc1 hc2
    exact ⟨a, b, d, by simp, (Regex.matches_plus_cls_iff _ _).mp ha,
      (Regex.matches_plus_cls_iff _ _).mp hb, (Regex.matches_plus_cls_iff _ _).mp hd⟩
  · rintro ⟨a, b, d, rfl, ha, hb, hd⟩
    refine Regex.Matches.seq ((Regex.matches_plus_cls_iff _ _).mpr ha) ?_
    refine @Regex.Matches.seq _ _ ['@'] _ (Regex.Matches.cls (by simp)) ?_
    refine Regex.Matches.seq ((Regex.matches_plus_cls_iff _ _).mpr hb) ?_
    exact @Regex.Matches.seq _ _ ['.'] _ (Regex.Matches.cls (by simp))
      ((Regex.matches_plus_cls_iff _ _).mpr hd)

/-- The list form of the test that `validate_email` performs. -/
theorem validate_email_iff_chars (s : String) :
    validate_email s = true ↔
      ∃ a b d : List Char, s.data = a ++ '@' :: (b ++ '.' :: d) ∧
        (a ≠ [] ∧ ∀ c ∈ a, notSpaceAt c = true) ∧
        (b ≠ [] ∧ ∀ c ∈ b, notSpaceAt c = true) ∧
        (d ≠ [] ∧ ∀ c ∈ d, notSpaceAt c = true) := by
  unfold validate_email Regex.test
  rw [Regex.rmatch_iff]
  exact email_regex_matches_iff s.data

/-! ## Claim C1 -/

theorem String_ne_empty_iff (s : String) : s ≠ "" ↔ s.data ≠ [] := by
  constructor
  · intro h hd
    exact h (String.ext hd)
  · intro h hs
    exact h (by rw [hs])

theorem isWhiteSpace_of_notSpaceAt {c : Char} (h : notSpaceAt c = true) :
    isWhiteSpace c = false :=
  ((notSpaceAt_iff c).mp h).1

/-- C1: `validate_email s` is true exactly when `s` is `local ++ "@" ++ domain ++ "." ++ tld`
with the three parts non-empty and free of white space and of `@`; in particular it
is false when `s` has no `@`, when no `.` follows an `@` of `s`, and when `s` contains
a white space character. -/
theorem validate_email_spec (s : String) :
    (validate_email s = true ↔
      ∃ localPart domain tld : String,
        s = localPart ++ "@" ++ domain ++ "." ++ tld ∧
        (localPart ≠ "" ∧ NoSpaceNoAt localPart) ∧
        (domain ≠ "" ∧ NoSpaceNoAt domain) ∧
        (tld ≠ "" ∧ NoSpaceNoAt tld)) ∧
    ('@' ∉ s.data → validate_email s = false) ∧
    ((∀ pre post : List Char, s.data = pre ++ '@' :: post → '.' ∉ post) →
      validate_email s = false) ∧
    ((∃ c ∈ s.data, isWhiteSpace c = true) → validate_email s = false) := by
  refine ⟨?_, ?_, ?_, ?_⟩
  · rw [validate_email_iff_chars]
    constructor
    · rintro ⟨a, b, d, hs, ⟨ha, ha'⟩, ⟨hb, hb'⟩, ⟨hd, hd'⟩⟩
      refine ⟨⟨a⟩, ⟨b⟩, ⟨d⟩, ?_, ⟨?_, ?_⟩, ⟨?_, ?_⟩, ⟨?_, ?_⟩⟩
      · apply String.ext
        simp [hs, String.data_append]
      · exact (String_ne_empty_iff _).mpr ha
      · exact fun c hc => (notSpaceAt_iff c).mp (ha' c hc)
      · exact (String_ne_empty_iff _).mpr hb
      · exact fun c hc => (notSpaceAt_iff c).mp (hb' c hc)
      · exact (String_ne_empty_iff _).mpr hd
      · exact fun c hc => (notSpaceAt_iff c).mp (hd' c hc)
    · rintro ⟨l, m, t, hs, ⟨hl, hl'⟩, ⟨hm, hm'⟩, ⟨ht, ht'⟩⟩
      refine ⟨l.data, m.data, t.data, ?_, ⟨?_, ?_⟩, ⟨?_, ?_⟩, ⟨?_, ?_⟩⟩
      · rw [hs]
        simp [String.data_append]
      · exact (String_ne_empty_iff _).mp hl
      · exact fun c hc => (notSpaceAt_iff c).mpr (hl' c hc)
      · exact (String_ne_empty_iff _).mp hm
      · exact fun c hc => (notSpaceAt_iff c).mpr (hm' c hc)
      · exact (String_ne_empty_iff _).mp ht
      · exact fun c hc => (notSpaceAt_iff c).mpr (ht' c hc)
  · intro hno
    rw [← Bool.not_eq_true, validate_email_iff_chars]
    rintro ⟨a, b, d, hs, -, -, -⟩
    exact hno (by rw [hs]; simp)
  · intro hno
    rw [← Bool.not_eq_true, validate_email_iff_chars]
    rintro ⟨a, b, d, hs, -, -, -⟩
    exact hno a _ hs (by simp)
  · rintro ⟨c, hc, hw⟩
    rw [← Bool.not_eq_true, validate_email_iff_chars]
    rintro ⟨a, b, d, hs, ⟨-, ha⟩, ⟨-, hb⟩, ⟨-, hd⟩⟩
    rw [hs] at hc
    simp only [List.mem_append, List.mem_cons] at hc
    rcases hc with hc | rfl | hc | rfl | hc
    · rw [isWhiteSpace_of_notSpaceAt (ha c hc)] at hw
      cases hw
    · revert hw
      decide
    · rw [isWhiteSpace_of_notSpaceAt (hb c hc)] at hw
      cases hw
    · revert hw
      decide
    · rw [isWhiteSpace_of_notSpaceAt (hd c hc)] at hw
      cases hw

/-- C1 at concrete addresses: a well-formed one, and one for each way of failing. -/
theorem validate_email_spec_witness :
    validate_email "ana@example.com" = true ∧
    validate_email "ana.example.com" = false ∧
    validate_email "ana@example" = false ∧
    validate_email "ana maria@example.com" = false :=
  ⟨(validate_email_spec "ana@example.com").1.mpr
      ⟨"ana", "example", "com", by decide, by decide, by decide, by decide⟩,
    (validate_email_spec "ana.example.com").2.1 (by decide),
    (validate_email_spec "ana@example").2.2.1 (by
      intro pre post h hdot
      have hmem : '.' ∈ "ana@example".data := by
        rw [h]
        simp [hdot]
      revert hmem
      decide),
    (validate_email_spec "ana maria@example.com").2.2.2 ⟨' ', by decide, by decide⟩⟩

/-! ## Facts about `classList` -/

theorem mem_classList_remove (classList tokens : List String) (c : String) :
    c ∈ classList_remove classList tokens ↔ c ∈ classList ∧ c ∉ tokens := by
  simp [classList_remove, List.mem_filter]

theorem classList_remove_eq_self (classList tokens : List String)
    (h : ∀ c ∈ classList, c ∉ tokens) : classList_remove classList tokens = classList := by
  unfold classList_remove
  rw [List.filter_eq_self]
  intro c hc
  simpa using h c hc

theorem classList_remove_append (a b tokens : List String) :
    classList_remove (a ++ b) tokens = classList_remove a tokens ++ classList_remove b tokens := by
  simp [classList_remove]

/-- What `show_status_message` computes, branch by branch. -/
theorem show_status_message_eq (element : Element) (message type : String) :
    show_status_message element message type =
      if type.data.isEmpty then
        ({ element with classList := classList_remove element.classList presentation },
          Completion.throw JSError.syntaxError)
      else if type.data.any isAsciiWhitespace then
        ({ element with classList := classList_remove element.classList presentation },
          Completion.throw JSError.invalidCharacterError)
      else
        ({ classList := classList_remove
              (if type ∈ classList_remove element.classList presentation
                then classList_remove element.classList presentation
                else classList_remove element.classList presentation ++ [type]) ["hidden"]
           textContent := message }, Completion.normal) := by
  unfold show_status_message classList_add presentation
  by_cases h1 : type.data.isEmpty = true
  · simp [h1]
  · by_cases h2 : type.data.any isAsciiWhitespace = true
    · simp [h1, h2]
    · by_cases h3 : type ∈ classList_remove element.classList ["success", "error", "hidden"]
      · simp [h1, h2, h3]
      · simp [h1, h2, h3]


theorem classList_remove_presentation_idem (classList : List String) :
    classList_remove (classList_remove classList presentation) presentation =
      classList_remove classList presentation := by
  apply classList_remove_eq_self
  intro c hc
  exact ((mem_classList_remove _ _ _).mp hc).2

theorem classList_remove_hidden_eq (classList : List String) (h : "hidden" ∉ classList) :
    classList_remove classList ["hidden"] = classList := by
  apply classList_remove_eq_self
  intro c hc hmem
  simp only [List.mem_singleton] at hmem
  exact h (hmem ▸ hc)

theorem hidden_not_mem_remove (classList : List String) :
    "hidden" ∉ classList_remove classList presentation := by
  intro h
  exact ((mem_classList_remove _ _ _).mp h).2 (by decide)

/-- The class list after a call that completes normally. -/
theorem classes_after_show (classList : List String) (type : String) :
    classList_remove
        (if type ∈ classList_remove classList presentation
          then classList_remove classList presentation
          else classList_remove classList presentation ++ [type]) ["hidden"] =
      if type ∈ classList_remove classList presentation ∨ type = "hidden"
        then classList_remove classList presentation
        else classList_remove classList presentation ++ [type] := by
  by_cases h1 : type ∈ classList_remove classList presentation
  · simp only [h1, if_true, true_or]
    exact classList_remove_hidden_eq _ (hidden_not_mem_remove classList)
  · by_cases h2 : type = "hidden"
    · subst h2
      simp only [h1, if_false, or_true, if_true, classList_remove_append]
      rw [classList_remove_hidden_eq _ (hidden_not_mem_remove classList)]
      simp [classList_remove]
    · simp only [h1, h2, if_false, or_false]
      apply classList_remove_eq_self
      intro c hc hmem
      simp only [List.mem_singleton] at hmem
      subst hmem
      rcases List.mem_append.mp hc with hc | hc
      · exact hidden_not_mem_remove classList hc
      · simp only [List.mem_singleton] at hc
        exact h2 hc.symm

/-- The class list of the second of two identical calls. -/
theorem classes_after_show_twice (classList : List String) (type : String) :
    let once := if type ∈ classList_remove classList presentation ∨ type = "hidden"
      then classList_remove classList presentation
      else classList_remove classList presentation ++ [type]
    (if type ∈ classList_remove once presentation ∨ type = "hidden"
      then classList_remove once presentation
      else classList_remove once presentation ++ [type]) = once := by
  intro once
  by_cases h1 : type ∈ classList_remove classList presentation ∨ type = "hidden"
  · have ho : once = classList_remove classList presentation := by simp [once, h1]
    rw [ho, classList_remove_presentation_idem]
    simp [h1]
  · have ho : once = classList_remove classList presentation ++ [type] := by simp [once, h1]
    have h1' := not_or.mp h1
    rw [ho, classList_remove_append, classList_remove_presentation_idem]
    by_cases h2 : type ∈ presentation
    · have h3 : classList_remove [type] presentation = [] := by
        simp [classList_remove, h2]
      rw [h3, List.append_nil]
      simp [h1]
    · have h3 : classList_remove [type] presentation = [type] := by
        simp [classList_remove, h2]
      rw [h3]
      simp

/-- C9: a second call of `show_status_message` with the same message and kind leaves
the target (class list and text) exactly as the first call left it, for every target,
message and kind. -/
theorem show_status_message_idempotent (element : Element) (message type : String) :
    (show_status_message (show_status_message element message type).1 message type).1 =
      (show_status_message element message type).1 := by
  rw [show_status_message_eq element message type]
  by_cases h1 : type.data.isEmpty = true
  · simp only [h1, if_true]
    rw [show_status_message_eq]
    simp only [h1, if_true, classList_remove_presentation_idem]
  · by_cases h2 : type.data.any isAsciiWhitespace = true
    · simp only [h1, h2, if_true]
      rw [show_status_message_eq]
      simp [h1, h2, classList_remove_presentation_idem]
    · simp only [h1, h2]
      rw [show_status_message_eq]
      simp only [h1, h2, classes_after_show]
      have := classes_after_show_twice element.classList type
      simp only at this
      simp [this]

theorem truthy_iff (s : String) : truthy s = true ↔ s ≠ "" := by
  rw [String_ne_empty_iff]
  unfold truthy
  cases s.data <;> simp

theorem truthy_eq_false_iff (s : String) : truthy s = false ↔ s = "" := by
  rw [← Bool.not_eq_true, truthy_iff]
  exact not_not

/-- A call with one of the two kinds of the script completes normally. -/
theorem show_status_message_kind (element : Element) (message type : String)
    (h : type = "success" ∨ type = "error") :
    show_status_message element message type =
      ({ classList := classList_remove element.classList presentation ++ [type]
         textContent := message }, Completion.normal) := by
  rw [show_status_message_eq, classes_after_show]
  have hn : type ∉ classList_remove element.classList presentation := by
    intro hm
    have := ((mem_classList_remove _ _ _).mp hm).2
    rcases h with rfl | rfl <;> exact this (by decide)
  rcases h with rfl | rfl
  · have e1 : ("success" : String).data.isEmpty = false := by decide
    have e2 : ("success" : String).data.any isAsciiWhitespace = false := by decide
    have e3 : ¬ ("success" : String) = "hidden" := by decide
    simp [e1, e2, e3, hn]
  · have e1 : ("error" : String).data.isEmpty = false := by decide
    have e2 : ("error" : String).data.any isAsciiWhitespace = false := by decide
    have e3 : ¬ ("error" : String) = "hidden" := by decide
    simp [e1, e2, e3, hn]

theorem displays_show (element : Element) (message type : String)
    (h : type = "success" ∨ type = "error") :
    displays (show_status_message element message type).1 message type := by
  rw [show_status_message_kind element message type h]
  refine ⟨rfl, by simp, ?_, ?_⟩
  · intro hm
    rcases List.mem_append.mp hm with hm | hm
    · exact hidden_not_mem_remove _ hm
    · simp only [List.mem_singleton] at hm
      rcases h with rfl | rfl <;> exact absurd hm (by decide)
  · intro k hk hne hm
    rcases List.mem_append.mp hm with hm | hm
    · have := ((mem_classList_remove _ _ _).mp hm).2
      simp only [List.mem_cons, List.mem_singleton, List.mem_nil_iff, or_false] at hk
      rcases hk with rfl | rfl <;> exact this (by decide)
    · simp only [List.mem_singleton] at hm
      exact hne hm

/-- C10: after `show_status_message(target, message, kind)` with `kind` one of
`success` and `error` (and `other` the other one), the call completes normally, the
class list holds `kind`, holds neither `other` nor `hidden`, holds any class other
than these three exactly when it did before, and the text is `message`. -/
theorem show_status_message_spec (element : Element) (message type other : String)
    (h : (type = "success" ∧ other = "error") ∨ (type = "error" ∧ other = "success")) :
    (show_status_message element message type).2 = Completion.normal ∧
    type ∈ (show_status_message element message type).1.classList ∧
    other ∉ (show_status_message element message type).1.classList ∧
    "hidden" ∉ (show_status_message element message type).1.classList ∧
    (∀ c : String, c ≠ "success" → c ≠ "error" → c ≠ "hidden" →
      (c ∈ (show_status_message element message type).1.classList ↔ c ∈ element.classList)) ∧
    (show_status_message element message type).1.textContent = message := by
  have ht : type = "success" ∨ type = "error" := by
    rcases h with ⟨h1, -⟩ | ⟨h1, -⟩
    · exact Or.inl h1
    · exact Or.inr h1
  rw [show_status_message_kind element message type ht]
  refine ⟨rfl, by simp, ?_, ?_, ?_, rfl⟩
  · intro hm
    rcases List.mem_append.mp hm with hm | hm
    · have := ((mem_classList_remove _ _ _).mp hm).2
      rcases h with ⟨-, rfl⟩ | ⟨-, rfl⟩ <;> exact this (by decide)
    · simp only [List.mem_singleton] at hm
      rcases h with ⟨rfl, rfl⟩ | ⟨rfl, rfl⟩ <;> exact absurd hm (by decide)
  · intro hm
    rcases List.mem_append.mp hm with hm | hm
    · exact hidden_not_mem_remove _ hm
    · simp only [List.mem_singleton] at hm
      rcases ht with rfl | rfl <;> exact absurd hm (by decide)
  · intro c hs he hh
    simp only [List.mem_append, mem_classList_remove, List.mem_singleton, presentation,
      List.mem_cons, List.mem_nil_iff, or_false, not_or]
    constructor
    · rintro (⟨hc, -⟩ | rfl)
      · exact hc
      · rcases ht with rfl | rfl
        · exact absurd rfl hs
        · exact absurd rfl he
    · intro hc
      exact Or.inl ⟨hc, hs, he, hh⟩

/-- C10 on a hidden region that still carries an old error: a success message. -/
theorem show_status_message_spec_witness :
    (("success" = "success" ∧ "error" = "error") ∨ ("success" = "error" ∧ "error" = "success")) ∧
    (show_status_message { classList := ["status", "error", "hidden"], textContent := "Server error" }
      "Enviado" "success").1 = { classList := ["status", "success"], textContent := "Enviado" } :=
  ⟨Or.inl ⟨rfl, rfl⟩, by
    have h := show_status_message_spec
      { classList := ["status", "error", "hidden"], textContent := "Server error" }
      "Enviado" "success" "error" (Or.inl ⟨rfl, rfl⟩)
    have hd : (show_status_message
        { classList := ["status", "error", "hidden"], textContent := "Server error" }
        "Enviado" "success").1.classList = ["status", "success"] := by decide
    exact congrArg₂ Element.mk hd h.2.2.2.2.2⟩

theorem show_status_kind (w : World) (message type : String)
    (h : type = "success" ∨ type = "error") :
    show_status w message type =
      ({ w with status_message :=
          { classList := classList_remove w.status_message.classList presentation ++ [type]
            textContent := message } }, Completion.normal) := by
  unfold show_status
  rw [show_status_message_kind _ _ _ h]

theorem start_of_passes_gates (w : World) (h : passes_gates w) :
    handle_form_submit_start w = Started.pending (busy w) w.submit_button.textContent := by
  obtain ⟨h1, h2, h3, h4⟩ := h
  unfold handle_form_submit_start busy
  simp [(truthy_iff _).mpr h1, (truthy_iff _).mpr h2, (truthy_iff _).mpr h3, h4]

theorem start_of_empty_field (w : World)
    (h : trim w.nombre_input.value = "" ∨ trim w.email_input.value = "" ∨
      trim w.mensaje_input.value = "") :
    handle_form_submit_start w =
      Started.returned
        { w with
          default_prevented := true
          status_message :=
            (show_status_message w.status_message "Por favor completa todos los campos" "error").1 }
        Completion.normal := by
  have hc : (!truthy (trim w.nombre_input.value) || !truthy (trim w.email_input.value) ||
      !truthy (trim w.mensaje_input.value)) = true := by
    rcases h with h | h | h
    · simp [(truthy_eq_false_iff _).mpr h]
    · simp [(truthy_eq_false_iff _).mpr h]
    · simp [(truthy_eq_false_iff _).mpr h]
  unfold handle_form_submit_start
  simp only [hc, if_true]
  rw [show_status_kind _ _ _ (Or.inr rfl), show_status_message_kind _ _ _ (Or.inr rfl)]

theorem start_of_invalid_email (w : World)
    (h : trim w.nombre_input.value ≠ "" ∧ trim w.email_input.value ≠ "" ∧
      trim w.mensaje_input.value ≠ "" ∧ validate_email (trim w.email_input.value) = false) :
    handle_form_submit_start w =
      Started.returned
        { w with
          default_prevented := true
          status_message :=
            (show_status_message w.status_message "Por favor ingresa un email válido" "error").1 }
        Completion.normal := by
  obtain ⟨h1, h2, h3, h4⟩ := h
  unfold handle_form_submit_start
  simp only [(truthy_iff _).mpr h1, (truthy_iff _).mpr h2, (truthy_iff _).mpr h3, h4,
    Bool.not_true, Bool.or_self, Bool.false_eq_true, if_false, Bool.not_false, if_true]
  rw [show_status_kind _ _ _ (Or.inr rfl), show_status_message_kind _ _ _ (Or.inr rfl)]


theorem handle_form_submit_of_passes_gates (w : World) (t : Transport) (h : passes_gates w) :
    handle_form_submit w t = handle_form_submit_settle (busy w) w.submit_button.textContent t := by
  unfold handle_form_submit
  rw [start_of_passes_gates w h]

theorem catch_block_eq (w : World) (e : JSError) :
    catch_block w e =
      ({ w with
          console := w.console ++ [e]
          status_message :=
            (show_status_message w.status_message "Error de conexión. Intenta de nuevo." "error").1 },
        Completion.normal) := by
  unfold catch_block
  rw [show_status_kind _ _ _ (Or.inr rfl), show_status_message_kind _ _ _ (Or.inr rfl)]

theorem settle_rejected (w : World) (original_text : String) :
    handle_form_submit_settle w original_text Transport.rejected =
      (finally_block (catch_block w JSError.fetchRejected).1 original_text, Completion.normal) := by
  simp [handle_form_submit_settle, try_block, catch_block_eq]

theorem settle_unparseable (w : World) (original_text : String) (ok : Bool) :
    handle_form_submit_settle w original_text (Transport.response ok none) =
      (finally_block (catch_block w JSError.bodyUnreadable).1 original_text, Completion.normal) := by
  simp [handle_form_submit_settle, try_block, catch_block_eq]

theorem settle_failure (w : World) (original_text : String) (ok : Bool) (data : SubmissionResult)
    (h : ok = false ∨ data.success = false) :
    handle_form_submit_settle w original_text (Transport.response ok (some data)) =
      (finally_block
        { w with status_message :=
            (show_status_message w.status_message
              (or_else data.message "Error al enviar el correo") "error").1 }
        original_text, Completion.normal) := by
  have hc : (ok && data.success) = false := by
    rcases h with h | h <;> simp [h]
  simp only [handle_form_submit_settle, try_block, hc, Bool.false_eq_true, if_false]
  rw [show_status_kind _ _ _ (Or.inr rfl), show_status_message_kind _ _ _ (Or.inr rfl)]

theorem settle_success_resolved (w : World) (original_text : String) (data : SubmissionResult)
    (hs : data.success = true) (hr : w.contact_form_resolves = true) :
    handle_form_submit_settle w original_text (Transport.response true (some data)) =
      (finally_block
        (set_timeout
          (form_reset { w with status_message :=
            (show_status_message w.status_message (text_of data.message) "success").1 })
          Callback.hide_status 5000)
        original_text, Completion.normal) := by
  simp only [handle_form_submit_settle, try_block, hs, Bool.and_self, if_true]
  rw [show_status_kind _ _ _ (Or.inl rfl), show_status_message_kind _ _ _ (Or.inl rfl)]
  simp [hr]

theorem settle_success_unresolved (w : World) (original_text : String) (data : SubmissionResult)
    (hs : data.success = true) (hr : w.contact_form_resolves = false) :
    handle_form_submit_settle w original_text (Transport.response true (some data)) =
      (finally_block
        (catch_block
          { w with status_message :=
            (show_status_message w.status_message (text_of data.message) "success").1 }
          (JSError.referenceError "contact_form")).1
        original_text, Completion.normal) := by
  simp only [handle_form_submit_settle, try_block, hs, Bool.and_self, if_true]
  rw [show_status_kind _ _ _ (Or.inl rfl), show_status_message_kind _ _ _ (Or.inl rfl)]
  simp [hr, catch_block_eq]

/-- The button after the handler has settled, whatever the transport call did. -/
theorem settle_button (w : World) (original_text : String) (t : Transport) :
    (handle_form_submit_settle w original_text t).1.submit_button =
      { disabled := false, textContent := original_text } := by
  simp [handle_form_submit_settle, finally_block]

/-- The handler issues no request after the one of its synchronous part. -/
theorem settle_requests (w : World) (original_text : String) (t : Transport) :
    (handle_form_submit_settle w original_text t).1.requests = w.requests := by
  rcases t with _ | ⟨ok, _ | data⟩
  · rw [settle_rejected, catch_block_eq]
    rfl
  · rw [settle_unparseable, catch_block_eq]
    rfl
  · by_cases hc : ok = false ∨ data.success = false
    · rw [settle_failure _ _ _ _ hc]
      rfl
    · have hok : ok = true := by
        cases ok
        · exact absurd (Or.inl rfl) hc
        · rfl
      have hs : data.success = true := by
        cases hd : data.success
        · exact absurd (Or.inr hd) hc
        · rfl
      subst hok
      cases hr : w.contact_form_resolves
      · rw [settle_success_unresolved _ _ _ hs hr, catch_block_eq]
        rfl
      · rw [settle_success_resolved _ _ _ hs hr]
        rfl


/-! ## The success branch -/

/-- The success branch where `contact_form` resolves: the server message is shown as
a success, the three fields take their default values and one timer of 5000 ms is set. -/
theorem handle_form_submit_success_resolved (w : World) (data : SubmissionResult)
    (h : passes_gates w) (hs : data.success = true) (hr : w.contact_form_resolves = true) :
    displays (handle_form_submit w (Transport.response true (some data))).1.status_message
      (text_of data.message) "success" ∧
    (handle_form_submit w (Transport.response true (some data))).1.nombre_input.value =
      w.nombre_input.defaultValue ∧
    (handle_form_submit w (Transport.response true (some data))).1.email_input.value =
      w.email_input.defaultValue ∧
    (handle_form_submit w (Transport.response true (some data))).1.mensaje_input.value =
      w.mensaje_input.defaultValue ∧
    (handle_form_submit w (Transport.response true (some data))).1.timers =
      w.timers ++ [{ callback := Callback.hide_status, delay := 5000 }] := by
  rw [handle_form_submit_of_passes_gates w _ h, settle_success_resolved (busy w) _ _ hs hr]
  exact ⟨displays_show _ _ _ (Or.inl rfl), rfl, rfl, rfl, rfl⟩

/-- The success branch on a host without a global `contact_form`:
`contact_form.reset()` throws after the success message was shown, the `catch` block
shows the connection error instead, the fields keep their values and no timer is set. -/
theorem handle_form_submit_success_not_resolved (w : World) (data : SubmissionResult)
    (h : passes_gates w) (hs : data.success = true) (hr : w.contact_form_resolves = false) :
    displays (handle_form_submit w (Transport.response true (some data))).1.status_message
      "Error de conexión. Intenta de nuevo." "error" ∧
    (handle_form_submit w (Transport.response true (some data))).1.nombre_input =
      w.nombre_input ∧
    (handle_form_submit w (Transport.response true (some data))).1.email_input =
      w.email_input ∧
    (handle_form_submit w (Transport.response true (some data))).1.mensaje_input =
      w.mensaje_input ∧
    (handle_form_submit w (Transport.response true (some data))).1.timers = w.timers := by
  rw [handle_form_submit_of_passes_gates w _ h, settle_success_unresolved (busy w) _ _ hs hr,
    catch_block_eq]
  exact ⟨displays_show _ _ _ (Or.inr rfl), rfl, rfl, rfl, rfl⟩

/-- When the timer of the success branch fires, the status region is hidden. -/
theorem run_callback_hide_status (w : World) :
    "hidden" ∈ (run_callback w Callback.hide_status).status_message.classList := by
  have e1 : ("hidden" : String).data.isEmpty = false := by decide
  have e2 : ("hidden" : String).data.any isAsciiWhitespace = false := by decide
  by_cases hm : "hidden" ∈ w.status_message.classList
  · simp [run_callback, classList_add, e1, e2, hm]
  · simp [run_callback, classList_add, e1, e2, hm]

/-! ## Claims C2 to C8 -/

/-- C2: when one of `nombre`, `email`, `mensaje` is empty after trimming, the handler
issues no transport call, shows 'Por favor completa todos los campos' with kind error,
leaves the submit button (disabled flag and label) untouched, and returns from its
synchronous part without ever waiting on a transport call. -/
theorem handle_form_submit_empty_field (w : World) (t : Transport)
    (h : trim w.nombre_input.value = "" ∨ trim w.email_input.value = "" ∨
      trim w.mensaje_input.value = "") :
    (handle_form_submit w t).1.requests = w.requests ∧
    displays (handle_form_submit w t).1.status_message
      "Por favor completa todos los campos" "error" ∧
    (handle_form_submit w t).1.submit_button = w.submit_button ∧
    handle_form_submit_start w =
      Started.returned (handle_form_submit w t).1 Completion.normal := by
  have hr : handle_form_submit w t =
      ({ w with
          default_prevented := true
          status_message :=
            (show_status_message w.status_message "Por favor completa todos los campos" "error").1 },
        Completion.normal) := by
    unfold handle_form_submit
    rw [start_of_empty_field w h]
  rw [hr]
  exact ⟨rfl, displays_show _ _ _ (Or.inr rfl), rfl, start_of_empty_field w h⟩

/-- C2 on a page whose message field holds only blanks. -/
theorem handle_form_submit_empty_field_witness :
    (trim "Ana" = "" ∨ trim "ana@example.com" = "" ∨ trim "  \n" = "") ∧
    (handle_form_submit
        { scenario true with mensaje_input := { value := "  \n", defaultValue := "" } }
        Transport.rejected).1.requests = [] :=
  ⟨by decide,
    (handle_form_submit_empty_field
      { scenario true with mensaje_input := { value := "  \n", defaultValue := "" } }
      Transport.rejected (by decide)).1⟩

/-- C3: when the three trimmed fields are non-empty and the trimmed email fails
`validate_email`, the handler issues no transport call and shows
'Por favor ingresa un email válido' with kind error. -/
theorem handle_form_submit_invalid_email (w : World) (t : Transport)
    (h : trim w.nombre_input.value ≠ "" ∧ trim w.email_input.value ≠ "" ∧
      trim w.mensaje_input.value ≠ "" ∧ validate_email (trim w.email_input.value) = false) :
    (handle_form_submit w t).1.requests = w.requests ∧
    displays (handle_form_submit w t).1.status_message
      "Por favor ingresa un email válido" "error" ∧
    handle_form_submit_start w =
      Started.returned (handle_form_submit w t).1 Completion.normal := by
  have hr : handle_form_submit w t =
      ({ w with
          default_prevented := true
          status_message :=
            (show_status_message w.status_message "Por favor ingresa un email válido" "error").1 },
        Completion.normal) := by
    unfold handle_form_submit
    rw [start_of_invalid_email w h]
  rw [hr]
  exact ⟨rfl, displays_show _ _ _ (Or.inr rfl), start_of_invalid_email w h⟩

/-- C3 on a page whose email has no dot after the `@`. -/
theorem handle_form_submit_invalid_email_witness :
    validate_email (trim "ana@example") = false ∧
    displays
      (handle_form_submit
        { scenario true with email_input := { value := "ana@example", defaultValue := "" } }
        Transport.rejected).1.status_message
      "Por favor ingresa un email válido" "error" :=
  ⟨by decide,
    (handle_form_submit_invalid_email
      { scenario true with email_input := { value := "ana@example", defaultValue := "" } }
      Transport.rejected (by decide)).2.1⟩

/-- C4: when both gates pass, the synchronous part of the handler stops at the
transport call with the button disabled, and for every outcome of that call the
handler ends with the button enabled and labelled as it was before the call. -/
theorem handle_form_submit_busy_state (w : World) (t : Transport) (h : passes_gates w) :
    (∃ waiting : World,
      handle_form_submit_start w = Started.pending waiting w.submit_button.textContent ∧
      waiting.submit_button.disabled = true ∧
      handle_form_submit w t =
        handle_form_submit_settle waiting w.submit_button.textContent t) ∧
    (handle_form_submit w t).1.submit_button.disabled = false ∧
    (handle_form_submit w t).1.submit_button.textContent = w.submit_button.textContent := by
  refine ⟨⟨busy w, start_of_passes_gates w h, rfl, handle_form_submit_of_passes_gates w t h⟩, ?_, ?_⟩
  · rw [handle_form_submit_of_passes_gates w t h, settle_button]
  · rw [handle_form_submit_of_passes_gates w t h, settle_button]

/-- C4 on the page of the scenarios, the server answering with an unparseable body. -/
theorem handle_form_submit_busy_state_witness :
    passes_gates (scenario false) ∧
    (handle_form_submit (scenario false) (Transport.response false none)).1.submit_button =
      { disabled := false, textContent := "Enviar" } :=
  ⟨by decide, by
    have h := handle_form_submit_busy_state (scenario false) (Transport.response false none)
      (by decide)
    exact congrArg₂ Button.mk h.2.1 h.2.2⟩

/-- C5: when both gates pass, the response is `ok` and `data.success` is true, on the
page where the handler runs (`contact_form` resolves to the form, whose three
controls have empty defaults), the handler ends with the server message shown with
kind success, the three fields empty, and one hiding of the status region scheduled
after 5000 ms. -/
theorem handle_form_submit_success_spec (w : World) (data : SubmissionResult)
    (h : passes_gates w) (hs : data.success = true) (hr : w.contact_form_resolves = true)
    (hn : w.nombre_input.defaultValue = "") (he : w.email_input.defaultValue = "")
    (hm : w.mensaje_input.defaultValue = "") :
    displays (handle_form_submit w (Transport.response true (some data))).1.status_message
      (match data.message with
        | some m => m
        | none => "")
      "success" ∧
    (handle_form_submit w (Transport.response true (some data))).1.nombre_input.value = "" ∧
    (handle_form_submit w (Transport.response true (some data))).1.email_input.value = "" ∧
    (handle_form_submit w (Transport.response true (some data))).1.mensaje_input.value = "" ∧
    (handle_form_submit w (Transport.response true (some data))).1.timers =
      w.timers ++ [{ callback := Callback.hide_status, delay := 5000 }] ∧
    (handle_form_submit w (Transport.response true (some data))).2 = Completion.normal := by
  have ht : text_of data.message = (match data.message with
      | some m => m
      | none => "") := by
    cases data.message <;> rfl
  rw [handle_form_submit_of_passes_gates w _ h, settle_success_resolved (busy w) _ _ hs hr,
    ← ht]
  exact ⟨displays_show _ _ _ (Or.inl rfl), hn, he, hm, rfl, rfl⟩

/-- C5 on scenario A: status 200 with `{success: true, message: "Enviado"}`. -/
theorem handle_form_submit_success_spec_witness :
    passes_gates (scenario true) ∧
    displays
      (handle_form_submit (scenario true)
        (Transport.response true
          (some { success := true, message := some "Enviado" }))).1.status_message
      "Enviado" "success" ∧
    (handle_form_submit (scenario true)
      (Transport.response true
        (some { success := true, message := some "Enviado" }))).1.timers =
      [{ callback := Callback.hide_status, delay := 5000 }] :=
  ⟨by decide,
    (handle_form_submit_success_spec (scenario true)
      { success := true, message := some "Enviado" } (by decide) rfl rfl rfl rfl rfl).1,
    (handle_form_submit_success_spec (scenario true)
      { success := true, message := some "Enviado" } (by decide) rfl rfl rfl rfl rfl).2.2.2.2.1⟩

/-- C6: when both gates pass and the body parses to `data`, a response whose `ok` is
false or whose `data.success` is false ends with a status of kind error whose text is
`data.message`, or 'Error al enviar el correo' when `data.message` is missing or
empty, and with the three fields as they were. -/
theorem handle_form_submit_failure (w : World) (ok : Bool) (data : SubmissionResult)
    (h : passes_gates w) (hfail : ok = false ∨ data.success = false) :
    displays (handle_form_submit w (Transport.response ok (some data))).1.status_message
      (match data.message with
        | some m => if m = "" then "Error al enviar el correo" else m
        | none => "Error al enviar el correo")
      "error" ∧
    (handle_form_submit w (Transport.response ok (some data))).1.nombre_input = w.nombre_input ∧
    (handle_form_submit w (Transport.response ok (some data))).1.email_input = w.email_input ∧
    (handle_form_submit w (Transport.response ok (some data))).1.mensaje_input =
      w.mensaje_input := by
  have hm : or_else data.message "Error al enviar el correo" =
      (match data.message with
        | some m => if m = "" then "Error al enviar el correo" else m
        | none => "Error al enviar el correo") := by
    cases hd : data.message with
    | none => rfl
    | some m =>
      by_cases hm : m = ""
      · simp [or_else, hm, truthy]
      · simp [or_else, hm, (truthy_iff m).mpr hm]
  rw [handle_form_submit_of_passes_gates w _ h, settle_failure _ _ _ _ hfail, ← hm]
  exact ⟨displays_show _ _ _ (Or.inr rfl), rfl, rfl, rfl⟩

/-- C6 on scenario B: status 500 with `{success: false, message: "Server error"}`. -/
theorem handle_form_submit_failure_witness :
    passes_gates (scenario true) ∧
    displays
      (handle_form_submit (scenario true)
        (Transport.response false (some { success := false, message := some "Server error" }))).1.status_message
      "Server error" "error" :=
  ⟨by decide,
    (handle_form_submit_failure (scenario true) false
      { success := false, message := some "Server error" } (by decide) (Or.inl rfl)).1⟩

/-- C7: when both gates pass and `fetch` rejects or the body of the response does not
parse, the handler shows 'Error de conexión. Intenta de nuevo.' with kind error and
completes normally: the exception does not reach its caller. -/
theorem handle_form_submit_transport_error (w : World) (t : Transport) (h : passes_gates w)
    (ht : t = Transport.rejected ∨ ∃ ok : Bool, t = Transport.response ok none) :
    displays (handle_form_submit w t).1.status_message
      "Error de conexión. Intenta de nuevo." "error" ∧
    (handle_form_submit w t).2 = Completion.normal := by
  rw [handle_form_submit_of_passes_gates w t h]
  rcases ht with rfl | ⟨ok, rfl⟩
  · rw [settle_rejected, catch_block_eq]
    exact ⟨displays_show _ _ _ (Or.inr rfl), rfl⟩
  · rw [settle_unparseable, catch_block_eq]
    exact ⟨displays_show _ _ _ (Or.inr rfl), rfl⟩

/-- C7 on scenario C: the transport call throws. -/
theorem handle_form_submit_transport_error_witness :
    passes_gates (scenario true) ∧
    displays (handle_form_submit (scenario true) Transport.rejected).1.status_message
      "Error de conexión. Intenta de nuevo." "error" ∧
    (handle_form_submit (scenario true) Transport.rejected).2 = Completion.normal :=
  ⟨by decide,
    handle_form_submit_transport_error (scenario true) Transport.rejected (by decide)
      (Or.inl rfl)⟩

/-- C8 as stated fails on the page of the scenarios: the one request issued is a POST
to '/send_email', but its body has no field named `name` and none named `message`. -/
theorem handle_form_submit_request_counterexample :
    passes_gates (scenario true) ∧
    (handle_form_submit (scenario true) Transport.rejected).1.requests.map
        (fun r => (r.url, r.method, r.body.map Prod.fst)) =
      [("/send_email", "POST", ["nombre", "email", "mensaje"])] ∧
    ∀ r ∈ (handle_form_submit (scenario true) Transport.rejected).1.requests,
      "name" ∉ r.body.map Prod.fst ∧ "message" ∉ r.body.map Prod.fst := by
  decide

/-- C8 amended: when both gates pass, the handler issues exactly one transport call,
whatever its outcome: a POST to '/send_email' whose form body carries the fields
`nombre`, `email` and `mensaje`, in this order, with the trimmed contents of the
three inputs. -/
theorem handle_form_submit_request (w : World) (t : Transport) (h : passes_gates w) :
    (handle_form_submit w t).1.requests =
      w.requests ++
        [{ url := "/send_email", method := "POST",
           body := [("nombre", trim w.nombre_input.value),
                    ("email", trim w.email_input.value),
                    ("mensaje", trim w.mensaje_input.value)] }] := by
  rw [handle_form_submit_of_passes_gates w t h, settle_requests]
  rfl

/-- C8 amended, on scenario A. -/
theorem handle_form_submit_request_witness :
    passes_gates (scenario true) ∧
    (handle_form_submit (scenario true)
        (Transport.response true (some { success := true, message := some "Enviado" }))).1.requests =
      [{ url := "/send_email", method := "POST",
         body := [("nombre", "Ana"), ("email", "ana@example.com"), ("mensaje", "Hola")] }] :=
  ⟨by decide,
    handle_form_submit_request (scenario true)
      (Transport.response true (some { success := true, message := some "Enviado" }))
      (by decide)⟩

end Script
